import Mathlib

/-!
Shallow embedding of `api/validate-receipt.js` (Vercel serverless handler that
validates an App Store receipt against Apple's production/sandbox verification
endpoints and returns a validity verdict).

Modelling conventions:
* JSON objects with possibly-absent fields become structures of `Option` fields
  (`none` = the JS property is absent / `undefined` / `null`).
* `parseInt` on a possibly-absent string becomes `parseIntJS : Option String → Option Int`,
  with `none` playing the role of `NaN`; every comparison involving `NaN` is false,
  and an `x - y` comparator that evaluates to `NaN` is treated as a tie by
  `Array.prototype.sort` (comparator results that are `NaN` count as `0`).
* The two network calls are an oracle: the production endpoint is called at most
  once, the sandbox endpoint up to twice (the 21007 re-route and the catch-block
  fallback), so the oracle gives one production result and a result for the i-th
  sandbox call.
* `Date.now()` in the grace-period comparison and `new Date()` for the response
  timestamp are two separate clock reads, passed as the parameters `nowMs` and
  `nowTs`; `toISOString()` is modelled as the raw millisecond reading (an
  injective renaming of the instant).
* Throwing is modelled by `UpstreamResult.err`; the handler itself never throws:
  it is a total function into `HandlerResult`.
-/

/-- One decimal digit of a character, `none` if not a digit. -/
def digitVal (c : Char) : Option Nat :=
  if c.isDigit then some (c.toNat - 48) else none

/-- Maximal leading run of decimal digits. -/
def takeDigits : List Char → List Nat
  | [] => []
  | c :: cs =>
    match digitVal c with
    | some d => d :: takeDigits cs
    | none => []

/-- Decimal value of a digit list. -/
def digitsToNat (ds : List Nat) : Nat :=
  ds.foldl (fun a d => a * 10 + d) 0

/-- JS `parseInt` (base 10) on a character list: skip leading whitespace, read an
optional sign, then the maximal digit prefix; no digits means `NaN` (`none`). -/
def parseIntChars (cs : List Char) : Option Int :=
  let cs := cs.dropWhile (fun c => c = ' ' || c = '\t' || c = '\n' || c = '\r')
  match cs with
  | '-' :: rest =>
    match takeDigits rest with
    | [] => none
    | ds => some (-(digitsToNat ds : Int))
  | '+' :: rest =>
    match takeDigits rest with
    | [] => none
    | ds => some ((digitsToNat ds : Int))
  | _ =>
    match takeDigits cs with
    | [] => none
    | ds => some ((digitsToNat ds : Int))

/-- JS `parseInt` applied to a possibly-absent string (`parseInt(undefined)` is `NaN`). -/
def parseIntJS : Option String → Option Int
  | none => none
  | some s => parseIntChars s.data

/-- A record of `latest_receipt_info`. -/
structure SubRecord where
  product_id : Option String
  expires_date_ms : Option String
  transaction_id : Option String
  is_trial_period : Option String
  is_in_intro_offer_period : Option String
deriving DecidableEq, Repr

/-- A record of `receipt.in_app`. -/
structure InAppRecord where
  product_id : Option String
  purchase_date_ms : Option String
  transaction_id : Option String
deriving DecidableEq, Repr

/-- A record of `pending_renewal_info`. -/
structure RenewalRecord where
  product_id : Option String
  auto_renew_status : Option String
deriving DecidableEq, Repr

/-- The decoded `receipt` object. -/
structure Receipt where
  bundle_id : Option String
  in_app : Option (List InAppRecord)
deriving DecidableEq, Repr

/-- The decoded Apple response body. -/
structure AppleResponse where
  status : Option Int
  receipt : Option Receipt
  latest_receipt_info : Option (List SubRecord)
  pending_renewal_info : Option (List RenewalRecord)
deriving DecidableEq, Repr

/-- Ways `validateWithApple` can throw: abort (timeout), a fetch-level network
error, a non-2xx HTTP response, or a JSON decode failure. -/
inductive UpstreamError where
  | abortError : UpstreamError
  | fetchError : UpstreamError
  | httpError : Int → UpstreamError
  | decodeError : UpstreamError
deriving DecidableEq, Repr

/-- Outcome of one `validateWithApple` call: a decoded body, or a throw. -/
inductive UpstreamResult where
  | ok : AppleResponse → UpstreamResult
  | err : UpstreamError → UpstreamResult
deriving DecidableEq, Repr

/-- The two fixed endpoints. -/
inductive Endpoint where
  | production : Endpoint
  | sandbox : Endpoint
deriving DecidableEq, Repr

/-- Deterministic stub of the upstream service: the result of the (single
possible) production call, and of the i-th sandbox call (0-based). -/
structure Oracle where
  prod : UpstreamResult
  sandbox : Nat → UpstreamResult

/-- The parsed POST body of the inbound request, plus the HTTP method. -/
structure Request where
  method : String
  receiptData : Option String
  bundleId : Option String
  productId : Option String
deriving DecidableEq, Repr

/-- The `subscriptionInfo` object; the four construction sites of the source
populate different subsets of these fields, the rest stay absent. -/
structure SubscriptionInfo where
  productId : Option String
  expiresDate : Option Int
  transactionId : Option String
  environment : Option String
  isTrialPeriod : Option Bool
  isIntroOfferPeriod : Option Bool
  purchaseDate : Option Int
  isPending : Option Bool
  autoRenewStatus : Option String
  fallback : Option Bool
deriving DecidableEq, Repr

/-- Skeleton of `subscriptionInfo` with every field absent. -/
def SubscriptionInfo.empty : SubscriptionInfo :=
  ⟨none, none, none, none, none, none, none, none, none, none⟩

/-- Debug object attached when the environment is sandbox. -/
structure DebugInfo where
  hasLatestReceiptInfo : Bool
  hasInApp : Bool
  hasPendingRenewal : Bool
deriving DecidableEq, Repr

/-- The JSON response body; `none` fields are absent from the serialized object
(the source never emits `isValid`, `error`, ... with an explicit `null`, except
`subscriptionInfo`, where `none` covers the explicit `null` of the final body). -/
structure Verdict where
  isValid : Option Bool
  error : Option String
  status : Option Int
  expired : Option Bool
  environment : Option String
  subscriptionInfo : Option SubscriptionInfo
  timestamp : Option Int
  debugInfo : Option DebugInfo
deriving DecidableEq, Repr

/-- Body skeleton with every field absent. -/
def Verdict.empty : Verdict :=
  ⟨none, none, none, none, none, none, none, none⟩

/-- What `res` carries back: HTTP status, JSON body, and the Cache-Control
header value when one is set. -/
structure HttpResponse where
  httpStatus : Nat
  body : Verdict
  cacheControl : Option String
deriving DecidableEq, Repr

/-- Result of one handler run: the response sent, plus the ordered list of
upstream endpoints actually called (instrumentation for call-count claims). -/
structure HandlerResult where
  resp : HttpResponse
  calls : List Endpoint
deriving DecidableEq, Repr

/-- The configured bundle id constant of the source. -/
def BUNDLE_ID : String := "com.elevenstoic.app"

/-- The configured subscription product id constant of the source. -/
def PRODUCT_ID : String := "com.elevenstoic.monthly"

/-- Grace period for network delays: 5 minutes in milliseconds. -/
def gracePeriod : Int := 5 * 60 * 1000

/-- JS falsiness of a possibly-absent string (`!receiptData`): absent or empty. -/
def jsFalsyStr : Option String → Bool
  | none => true
  | some s => s.isEmpty

/-- Stable insertion of `x` (a later element) into an already-processed list,
under the comparator `(a, b) ↦ key b - key a` of the source (descending by
`key`); when either key is `NaN` the comparator result is `NaN`, which
`Array.prototype.sort` treats as a tie, so `x` stays after `y`. -/
def insertByDesc {α : Type} (key : α → Option Int) (x : α) : List α → List α
  | [] => [x]
  | y :: ys =>
    match key y, key x with
    | some ky, some kx =>
      if kx ≤ ky then y :: insertByDesc key x ys else x :: y :: ys
    | _, _ => y :: insertByDesc key x ys

/-- Model of `arr.sort((a, b) => key(b) - key(a))`: a stable sort descending by
`key` (on key-consistent inputs every stable sort, the engine's included,
produces this order). -/
def jsSortDesc {α : Type} (key : α → Option Int) (l : List α) : List α :=
  l.foldl (fun acc x => insertByDesc key x acc) []

/-- The `latest_receipt_info` records whose `product_id` is the configured one. -/
def relevantTransactions (lri : List SubRecord) : List SubRecord :=
  lri.filter (fun t => decide (t.product_id = some PRODUCT_ID))

/-- Sort the relevant transactions by `expires_date_ms` descending and take the
head: the `latestTransaction` of the source. -/
def latestTransaction (lri : List SubRecord) : Option SubRecord :=
  (jsSortDesc (fun r => parseIntJS r.expires_date_ms) (relevantTransactions lri)).head?

/-- Method 1: scan `latest_receipt_info` for an active subscription. -/
def method1 (resp : AppleResponse) (environment : String) (nowMs : Int) :
    Option SubscriptionInfo :=
  match resp.latest_receipt_info with
  | none => none
  | some lri =>
    if lri.length > 0 then
      if (relevantTransactions lri).length > 0 then
        match latestTransaction lri with
        | none => none
        | some latest =>
          match parseIntJS latest.expires_date_ms with
          | none => none
          | some expirationDate =>
            if expirationDate > nowMs - gracePeriod then
              some { SubscriptionInfo.empty with
                productId := latest.product_id
                expiresDate := some expirationDate
                transactionId := latest.transaction_id
                environment := some environment
                isTrialPeriod := some (latest.is_trial_period = some "true")
                isIntroOfferPeriod :=
                  some (latest.is_in_intro_offer_period = some "true") }
            else none
      else none
    else none

/-- The `in_app` purchases whose `product_id` is the configured one. -/
def relevantPurchases (inApp : List InAppRecord) : List InAppRecord :=
  inApp.filter (fun p => decide (p.product_id = some PRODUCT_ID))

/-- Method 2: scan `receipt.in_app` for a purchase of the product (any purchase
counts, no expiry considered). -/
def method2 (resp : AppleResponse) (environment : String) : Option SubscriptionInfo :=
  match resp.receipt with
  | none => none
  | some receipt =>
    match receipt.in_app with
    | none => none
    | some inApp =>
      if (relevantPurchases inApp).length > 0 then
        match (jsSortDesc (fun p => parseIntJS p.purchase_date_ms)
            (relevantPurchases inApp)).head? with
        | none => none
        | some latest =>
          some { SubscriptionInfo.empty with
            productId := latest.product_id
            transactionId := latest.transaction_id
            environment := some environment
            purchaseDate := parseIntJS latest.purchase_date_ms }
      else none

/-- Method 3: scan `pending_renewal_info`, sandbox environment only. -/
def method3 (resp : AppleResponse) (environment : String) : Option SubscriptionInfo :=
  match resp.pending_renewal_info with
  | none => none
  | some pri =>
    if environment = "sandbox" then
      match pri.find? (fun r => decide (r.product_id = some PRODUCT_ID)) with
      | none => none
      | some pendingRenewal =>
        if pendingRenewal.auto_renew_status = some "1" then
          some { SubscriptionInfo.empty with
            productId := pendingRenewal.product_id
            isPending := some true
            environment := some environment
            autoRenewStatus := pendingRenewal.auto_renew_status }
        else none
    else none

/-- The receipt's embedded bundle id, if any (`response.receipt?.bundle_id`). -/
def bundleOf (resp : AppleResponse) : Option String :=
  resp.receipt.bind Receipt.bundle_id

/-- Method 4: sandbox leniency fallback — any sandbox receipt whose bundle id
matches is granted. -/
def method4 (resp : AppleResponse) (environment : String) : Option SubscriptionInfo :=
  if environment = "sandbox" ∧ bundleOf resp = some BUNDLE_ID then
    some { SubscriptionInfo.empty with
      productId := some PRODUCT_ID
      environment := some environment
      fallback := some true }
  else none

/-- The tail of the detection cascade, from method 2 on. -/
def detectFrom2 (resp : AppleResponse) (environment : String) : Option SubscriptionInfo :=
  match method2 resp environment with
  | some i => some i
  | none =>
    match method3 resp environment with
    | some i => some i
    | none => method4 resp environment

/-- The full four-method detection cascade, first match wins. -/
def detect (resp : AppleResponse) (environment : String) (nowMs : Int) :
    Option SubscriptionInfo :=
  match method1 resp environment nowMs with
  | some i => some i
  | none => detectFrom2 resp environment

/-- The fixed status → human-readable meaning table of the source. -/
def statusMeanings (s : Int) : Option String :=
  if s = 21000 then some "The App Store could not read the JSON object you provided."
  else if s = 21002 then some "The data in the receipt-data property was malformed or missing."
  else if s = 21003 then some "The receipt could not be authenticated."
  else if s = 21004 then some "The shared secret you provided does not match the shared secret on file for your account."
  else if s = 21005 then some "The receipt server is not currently available."
  else if s = 21006 then some "This receipt is valid but the subscription has expired."
  else if s = 21007 then some "This receipt is from the sandbox environment, but it was sent to the production environment for verification."
  else if s = 21008 then some "This receipt is from the production environment, but it was sent to the sandbox environment for verification."
  else if s = 21010 then some "This receipt could not be authorized. Treat this the same as if a purchase was never made."
  else none

/-- The debug object attached to sandbox responses: which of the three upstream
collections were present and non-empty. -/
def debugOf (resp : AppleResponse) : DebugInfo :=
  { hasLatestReceiptInfo :=
      match resp.latest_receipt_info with
      | some l => decide (l.length > 0)
      | none => false
    hasInApp :=
      match resp.receipt with
      | some r =>
        match r.in_app with
        | some l => decide (l.length > 0)
        | none => false
      | none => false
    hasPendingRenewal :=
      match resp.pending_renewal_info with
      | some l => decide (l.length > 0)
      | none => false }

/-- Classification of an adopted upstream response (source lines 110-280):
non-zero status handling with the 21006 special case, the bundle id check, the
detection cascade, and the final success body with caching header and sandbox
debug object. -/
def classify (resp : AppleResponse) (environment : String) (nowMs nowTs : Int) :
    HttpResponse :=
  if resp.status ≠ some 0 then
    if resp.status = some 21006 then
      { httpStatus := 200
        body := { Verdict.empty with
          isValid := some false
          error := some "Subscription has expired"
          status := resp.status
          expired := some true }
        cacheControl := none }
    else
      let statusMeaning :=
        (match resp.status with
          | some s => statusMeanings s
          | none => none).getD "Unknown error"
      { httpStatus := 200
        body := { Verdict.empty with
          isValid := some false
          error := some ("Receipt validation failed: " ++ statusMeaning)
          status := resp.status }
        cacheControl := none }
  else if bundleOf resp ≠ some BUNDLE_ID then
    { httpStatus := 200
      body := { Verdict.empty with
        isValid := some false
        error := some "Bundle ID mismatch" }
      cacheControl := none }
  else
    let subscriptionInfo := detect resp environment nowMs
    let isValidSubscription := subscriptionInfo.isSome
    { httpStatus := 200
      body := { Verdict.empty with
        isValid := some isValidSubscription
        environment := some environment
        subscriptionInfo := subscriptionInfo
        timestamp := some nowTs
        debugInfo :=
          if environment = "sandbox" then some (debugOf resp) else none }
      cacheControl :=
        if isValidSubscription then some "private, max-age=300" else none }

/-- The upstream-calling phase (source lines 78-108). Production first; on a
21007 status, re-route to sandbox — a throw of that re-routed call lands in the
outer `catch (prodError)`, which tries sandbox once more; on a production
throw, fall back to sandbox. Returns the adopted (response, environment) pair,
or `none` when every attempted call threw, plus the endpoint call trace. -/
def callPhase (o : Oracle) : Option (AppleResponse × String) × List Endpoint :=
  match o.prod with
  | .ok r =>
    if r.status = some 21007 then
      match o.sandbox 0 with
      | .ok r2 => (some (r2, "sandbox"), [.production, .sandbox])
      | .err _ =>
        match o.sandbox 1 with
        | .ok r3 => (some (r3, "sandbox"), [.production, .sandbox, .sandbox])
        | .err _ => (none, [.production, .sandbox, .sandbox])
    else (some (r, "production"), [.production])
  | .err _ =>
    match o.sandbox 0 with
    | .ok r2 => (some (r2, "sandbox"), [.production, .sandbox])
    | .err _ => (none, [.production, .sandbox])

/-- The full handler: CORS preflight, method check, input validation, the
upstream phase, and classification. `nowMs` is the `Date.now()` reading used in
the grace comparison, `nowTs` the clock reading behind the response timestamp. -/
def handler (req : Request) (o : Oracle) (nowMs nowTs : Int) : HandlerResult :=
  if req.method = "OPTIONS" then
    { resp := { httpStatus := 200, body := Verdict.empty, cacheControl := none }
      calls := [] }
  else if req.method ≠ "POST" then
    { resp := { httpStatus := 405
                body := { Verdict.empty with error := some "Method not allowed" }
                cacheControl := none }
      calls := [] }
  else if jsFalsyStr req.receiptData then
    { resp := { httpStatus := 400
                body := { Verdict.empty with
                  isValid := some false
                  error := some "Receipt data is required" }
                cacheControl := none }
      calls := [] }
  else if req.bundleId ≠ some BUNDLE_ID then
    { resp := { httpStatus := 400
                body := { Verdict.empty with
                  isValid := some false
                  error := some "Invalid bundle ID" }
                cacheControl := none }
      calls := [] }
  else
    match callPhase o with
    | (none, calls) =>
      { resp := { httpStatus := 500
                  body := { Verdict.empty with
                    isValid := some false
                    error := some "Receipt validation failed with Apple" }
                  cacheControl := none }
        calls := calls }
    | (some (resp, environment), calls) =>
      { resp := classify resp environment nowMs nowTs
        calls := calls }

/-- Parsed sort key of a record, defaulting to 0; used only in contexts where
every key is known to parse. -/
def kval {α : Type} (key : α → Option Int) (x : α) : Int := (key x).getD 0

/-- A response with the body timestamp erased. -/
def stripBodyTimestamp (r : HttpResponse) : HttpResponse :=
  { r with body := { r.body with timestamp := none } }

/-- A handler result with the body timestamp erased. -/
def stripTimestamp (h : HandlerResult) : HandlerResult :=
  { h with resp := stripBodyTimestamp h.resp }

/-- The terminal response sent when every attempted upstream call threw. -/
def fail500 : HttpResponse :=
  { httpStatus := 500
    body := { Verdict.empty with
      isValid := some false
      error := some "Receipt validation failed with Apple" }
    cacheControl := none }

/-- The response sent for an adopted status of 21006 (expired subscription). -/
def expiredVerdict : HttpResponse :=
  { httpStatus := 200
    body := { Verdict.empty with
      isValid := some false
      error := some "Subscription has expired"
      status := some 21006
      expired := some true }
    cacheControl := none }

theorem mem_insertByDesc {α : Type} (key : α → Option Int) (x a : α)
    (l : List α) : a ∈ insertByDesc key x l ↔ a = x ∨ a ∈ l := by
  induction l with
  | nil => simp [insertByDesc]
  | cons y ys ih =>
    cases hky : key y with
    | none =>
      simp only [insertByDesc, hky, List.mem_cons, ih]
      tauto
    | some ky =>
      cases hkx : key x with
      | none =>
        simp only [insertByDesc, hky, hkx, List.mem_cons, ih]
        tauto
      | some kx =>
        by_cases hle : kx ≤ ky
        · simp only [insertByDesc, hky, hkx, if_pos hle, List.mem_cons, ih]
          tauto
        · simp only [insertByDesc, hky, hkx, if_neg hle, List.mem_cons]

theorem foldl_insertByDesc_head {α : Type} (key : α → Option Int) :
    ∀ (l acc : List α) (m : α),
      acc.head? = some m →
      (∀ x ∈ acc, (key x).isSome) →
      (∀ x ∈ l, (key x).isSome) →
      (∀ x ∈ acc, kval key x ≤ kval key m) →
      ∃ n, (l.foldl (fun a x => insertByDesc key x a) acc).head? = some n ∧
        (n ∈ acc ∨ n ∈ l) ∧
        (∀ x ∈ acc, kval key x ≤ kval key n) ∧
        (∀ x ∈ l, kval key x ≤ kval key n) := by
  intro l
  induction l with
  | nil =>
    intro acc m hm hacc _ hmax
    refine ⟨m, by simpa using hm, Or.inl ?_, hmax, by simp⟩
    cases acc with
    | nil => simp at hm
    | cons a t =>
      simp only [List.head?_cons, Option.some.injEq] at hm
      exact hm ▸ List.mem_cons_self a t
  | cons x xs ih =>
    intro acc m hm hacc hl hmax
    obtain ⟨rest, rfl⟩ : ∃ rest, acc = m :: rest := by
      cases acc with
      | nil => simp at hm
      | cons a t =>
        simp only [List.head?_cons, Option.some.injEq] at hm
        exact ⟨t, by rw [hm]⟩
    obtain ⟨km, hkm⟩ := Option.isSome_iff_exists.mp
      (hacc m (List.mem_cons_self m rest))
    obtain ⟨kx, hkx⟩ := Option.isSome_iff_exists.mp
      (hl x (List.mem_cons_self x xs))
    have hmemins : ∀ z, z ∈ insertByDesc key x (m :: rest) ↔
        z = x ∨ z ∈ m :: rest := fun z => mem_insertByDesc key x z (m :: rest)
    have haccins : ∀ z ∈ insertByDesc key x (m :: rest), (key z).isSome := by
      intro z hz
      rcases (hmemins z).mp hz with h | h
      · exact h ▸ hl x (List.mem_cons_self x xs)
      · exact hacc z h
    have hfold : (x :: xs).foldl (fun a x => insertByDesc key x a) (m :: rest) =
        xs.foldl (fun a x => insertByDesc key x a)
          (insertByDesc key x (m :: rest)) := rfl
    have hkvx : kval key x = kx := by simp [kval, hkx]
    have hkvm : kval key m = km := by simp [kval, hkm]
    by_cases hle : kx ≤ km
    · have hins : insertByDesc key x (m :: rest) =
          m :: insertByDesc key x rest := by
        simp [insertByDesc, hkm, hkx, hle]
      have hhd : (insertByDesc key x (m :: rest)).head? = some m := by
        rw [hins]; rfl
      have hbound : ∀ z ∈ insertByDesc key x (m :: rest),
          kval key z ≤ kval key m := by
        intro z hz
        rcases (hmemins z).mp hz with h | h
        · subst h; rw [hkvx, hkvm]; exact hle
        · exact hmax z h
      obtain ⟨n, hn, hmem, hb1, hb2⟩ := ih (insertByDesc key x (m :: rest)) m
        hhd haccins (fun z hz => hl z (List.mem_cons_of_mem x hz)) hbound
      refine ⟨n, by rw [hfold]; exact hn, ?_, ?_, ?_⟩
      · rcases hmem with h | h
        · rcases (hmemins n).mp h with h | h
          · exact Or.inr (h ▸ List.mem_cons_self x xs)
          · exact Or.inl h
        · exact Or.inr (List.mem_cons_of_mem x h)
      · intro z hz
        exact hb1 z ((hmemins z).mpr (Or.inr hz))
      · intro z hz
        rcases List.mem_cons.mp hz with h | h
        · exact h ▸ hb1 x ((hmemins x).mpr (Or.inl rfl))
        · exact hb2 z h
    · have hins : insertByDesc key x (m :: rest) = x :: m :: rest := by
        simp [insertByDesc, hkm, hkx, hle]
      have hhd : (insertByDesc key x (m :: rest)).head? = some x := by
        rw [hins]; rfl
      have hbound : ∀ z ∈ insertByDesc key x (m :: rest),
          kval key z ≤ kval key x := by
        intro z hz
        rcases (hmemins z).mp hz with h | h
        · exact h ▸ le_refl _
        · calc kval key z ≤ kval key m := hmax z h
            _ ≤ kval key x := by rw [hkvx, hkvm]; exact le_of_lt (lt_of_not_le hle)
      obtain ⟨n, hn, hmem, hb1, hb2⟩ := ih (insertByDesc key x (m :: rest)) x
        hhd haccins (fun z hz => hl z (List.mem_cons_of_mem x hz)) hbound
      refine ⟨n, by rw [hfold]; exact hn, ?_, ?_, ?_⟩
      · rcases hmem with h | h
        · rcases (hmemins n).mp h with h | h
          · exact Or.inr (h ▸ List.mem_cons_self x xs)
          · exact Or.inl h
        · exact Or.inr (List.mem_cons_of_mem x h)
      · intro z hz
        exact hb1 z ((hmemins z).mpr (Or.inr hz))
      · intro z hz
        rcases List.mem_cons.mp hz with h | h
        · exact h ▸ hb1 x ((hmemins x).mpr (Or.inl rfl))
        · exact hb2 z h

theorem jsSortDesc_head {α : Type} (key : α → Option Int) (l : List α)
    (hne : l ≠ []) (hp : ∀ x ∈ l, (key x).isSome) :
    ∃ n, (jsSortDesc key l).head? = some n ∧ n ∈ l ∧
      ∀ x ∈ l, kval key x ≤ kval key n := by
  cases l with
  | nil => exact absurd rfl hne
  | cons x xs =>
    have h0 : jsSortDesc key (x :: xs) =
        xs.foldl (fun a x => insertByDesc key x a) [x] := rfl
    obtain ⟨n, hn, hmem, hb1, hb2⟩ := foldl_insertByDesc_head key xs [x] x rfl
      (by intro z hz; simp at hz; exact hz ▸ hp x (List.mem_cons_self x xs))
      (fun z hz => hp z (List.mem_cons_of_mem x hz))
      (by intro z hz; simp at hz; exact hz ▸ le_refl _)
    refine ⟨n, by rw [h0]; exact hn, ?_, ?_⟩
    · rcases hmem with h | h
      · simp at h; exact h ▸ List.mem_cons_self x xs
      · exact List.mem_cons_of_mem x h
    · intro z hz
      rcases List.mem_cons.mp hz with h | h
      · exact h ▸ hb1 x (List.mem_cons_self x [])
      · exact hb2 z h

/-- C3: for an upstream result whose `latest_receipt_info` contains at least
one record for the configured product, every matching record parsing as an
integer, detection method (a) selects a matching record with the numerically
maximal `expires_date_ms` and reports an active subscription iff that expiry
exceeds `now` minus the 5-minute grace period; in particular, with exactly two
matching records of expiries T1 < T2, the T2 record is selected and activity is
`T2 > now - gracePeriod`. -/
theorem claim3_latest_receipt_scan (resp : AppleResponse) (environment : String)
    (nowMs : Int) (lri : List SubRecord)
    (hlri : resp.latest_receipt_info = some lri)
    (hne : relevantTransactions lri ≠ [])
    (hp : ∀ x ∈ relevantTransactions lri, (parseIntJS x.expires_date_ms).isSome) :
    (∃ m e, latestTransaction lri = some m ∧ m ∈ relevantTransactions lri ∧
      parseIntJS m.expires_date_ms = some e ∧
      (∀ x ∈ relevantTransactions lri, ∀ ex,
        parseIntJS x.expires_date_ms = some ex → ex ≤ e) ∧
      ((method1 resp environment nowMs).isSome ↔ e > nowMs - gracePeriod)) ∧
    (∀ r1 r2 T1 T2, lri = [r1, r2] →
      r1.product_id = some PRODUCT_ID → r2.product_id = some PRODUCT_ID →
      parseIntJS r1.expires_date_ms = some T1 →
      parseIntJS r2.expires_date_ms = some T2 → T1 < T2 →
      latestTransaction lri = some r2 ∧
      ((method1 resp environment nowMs).isSome ↔ T2 > nowMs - gracePeriod)) := by
  obtain ⟨n, hhead, hmem, hbound⟩ := jsSortDesc_head
    (fun r => parseIntJS r.expires_date_ms) (relevantTransactions lri) hne hp
  have hlat : latestTransaction lri = some n := hhead
  obtain ⟨e, hpe⟩ := Option.isSome_iff_exists.mp (hp n hmem)
  have hkn : kval (fun r => parseIntJS r.expires_date_ms) n = e := by
    simp [kval, hpe]
  have hbound2 : ∀ x ∈ relevantTransactions lri, ∀ ex,
      parseIntJS x.expires_date_ms = some ex → ex ≤ e := by
    intro x hx ex hex
    have := hbound x hx
    rwa [hkn, show kval (fun r => parseIntJS r.expires_date_ms) x = ex by
      simp [kval, hex]] at this
  have hlen1 : lri.length > 0 := by
    cases lri with
    | nil => exact absurd (by simp [relevantTransactions]) hne
    | cons a t => simp
  have hlen2 : (relevantTransactions lri).length > 0 :=
    List.length_pos.mpr hne
  have hiff : (method1 resp environment nowMs).isSome ↔
      e > nowMs - gracePeriod := by
    by_cases hgt : e > nowMs - gracePeriod
    · simp [method1, hlri, hlen1, hlen2, hlat, hpe, hgt]
    · simp [method1, hlri, hlen1, hlen2, hlat, hpe, hgt]
  refine ⟨⟨n, e, hlat, hmem, hpe, hbound2, hiff⟩, ?_⟩
  intro r1 r2 T1 T2 hl h1 h2 hT1 hT2 hlt
  subst hl
  have hrel : relevantTransactions [r1, r2] = [r1, r2] := by
    simp [relevantTransactions, List.filter, h1, h2]
  have hn2 : n = r2 := by
    rcases (by rw [hrel] at hmem; simpa using hmem : n = r1 ∨ n = r2) with h | h
    · exfalso
      have hT2le : T2 ≤ e := hbound2 r2 (by rw [hrel]; simp) T2 hT2
      have heT1 : e = T1 := by
        rw [h] at hpe; rw [hpe] at hT1; exact Option.some_inj.mp hT1
      omega
    · exact h
  have heT2 : e = T2 := by
    rw [hn2] at hpe; rw [hpe] at hT2; exact Option.some_inj.mp hT2
  subst hn2
  subst heT2
  exact ⟨hlat, hiff⟩

/-- Witness for `claim3_latest_receipt_scan`: two matching records with
expiries 1000 < 2000; the 2000-record is selected and activity is the grace
comparison at 2000. -/
theorem claim3_witness :
    latestTransaction
        [⟨some "com.elevenstoic.monthly", some "1000", some "t1", none, none⟩,
         ⟨some "com.elevenstoic.monthly", some "2000", some "t2", none, none⟩] =
      some ⟨some "com.elevenstoic.monthly", some "2000", some "t2", none, none⟩ ∧
    ((method1
        ⟨some 0, some ⟨some "com.elevenstoic.app", none⟩,
          some [⟨some "com.elevenstoic.monthly", some "1000", some "t1", none, none⟩,
                ⟨some "com.elevenstoic.monthly", some "2000", some "t2", none, none⟩],
          none⟩
        "production" 0).isSome ↔ (2000 : Int) > 0 - gracePeriod) :=
  (claim3_latest_receipt_scan _ "production" 0 _ rfl (by decide) (by decide)).2
    _ _ 1000 2000 rfl rfl rfl (by decide) (by decide) (by decide)

/-- C10: when the selected latest transaction's `expires_date_ms` does not
parse (`parseInt` yields `NaN`), the `NaN` grace comparison is false: method
(a) finds nothing, no exception occurs, and the cascade falls through to the
in-app purchase scan (method 2 onward). -/
theorem claim10_nan_expiry (resp : AppleResponse) (environment : String)
    (nowMs : Int) (lri : List SubRecord) (m : SubRecord)
    (hlri : resp.latest_receipt_info = some lri)
    (hm : latestTransaction lri = some m)
    (hnan : parseIntJS m.expires_date_ms = none) :
    method1 resp environment nowMs = none ∧
    detect resp environment nowMs = detectFrom2 resp environment := by
  have h1 : method1 resp environment nowMs = none := by
    by_cases hlen1 : lri.length > 0
    · by_cases hlen2 : (relevantTransactions lri).length > 0
      · simp [method1, hlri, hlen1, hlen2, hm, hnan]
      · simp [method1, hlri, hlen1, hlen2]
    · simp [method1, hlri, hlen1]
  exact ⟨h1, by simp [detect, h1]⟩

/-- Witness for `claim10_nan_expiry`: one matching record whose expiry string
is not numeric. -/
theorem claim10_witness :
    method1
        ⟨some 0, some ⟨some "com.elevenstoic.app", none⟩,
          some [⟨some "com.elevenstoic.monthly", some "abc", none, none, none⟩],
          none⟩
        "production" 0 = none ∧
    detect
        ⟨some 0, some ⟨some "com.elevenstoic.app", none⟩,
          some [⟨some "com.elevenstoic.monthly", some "abc", none, none, none⟩],
          none⟩
        "production" 0 =
      detectFrom2
        ⟨some 0, some ⟨some "com.elevenstoic.app", none⟩,
          some [⟨some "com.elevenstoic.monthly", some "abc", none, none, none⟩],
          none⟩
        "production" :=
  claim10_nan_expiry _ "production" 0 _
    ⟨some "com.elevenstoic.monthly", some "abc", none, none, none⟩
    rfl (by decide) (by decide)

theorem classify_eq_success (resp : AppleResponse) (env : String) (n1 n2 : Int)
    (hz : resp.status = some 0) (hb : bundleOf resp = some BUNDLE_ID) :
    classify resp env n1 n2 =
      { httpStatus := 200
        body := { Verdict.empty with
          isValid := some (detect resp env n1).isSome
          environment := some env
          subscriptionInfo := detect resp env n1
          timestamp := some n2
          debugInfo := if env = "sandbox" then some (debugOf resp) else none }
        cacheControl := if (detect resp env n1).isSome then
          some "private, max-age=300" else none } := by
  rw [classify, if_neg (by simp [hz]), if_neg (by simp [hb])]

theorem classify_valid_info (resp : AppleResponse) (env : String) (n1 n2 : Int)
    (h : (classify resp env n1 n2).body.isValid = some true) :
    (classify resp env n1 n2).body.subscriptionInfo ≠ none := by
  by_cases hz : resp.status = some 0
  · by_cases hb : bundleOf resp = some BUNDLE_ID
    · rw [classify_eq_success resp env n1 n2 hz hb] at h ⊢
      simp only [Option.some.injEq] at h
      simpa using Option.isSome_iff_ne_none.mp h
    · simp [classify, hz, hb, Verdict.empty] at h
  · by_cases he : resp.status = some 21006
    · simp [classify, hz, he, Verdict.empty] at h
    · simp [classify, hz, he, Verdict.empty] at h

theorem classify_isValid_some (resp : AppleResponse) (env : String)
    (n1 n2 : Int) : (classify resp env n1 n2).body.isValid ≠ none := by
  by_cases hz : resp.status = some 0
  · by_cases hb : bundleOf resp = some BUNDLE_ID
    · rw [classify_eq_success resp env n1 n2 hz hb]
      simp
    · simp [classify, hz, hb, Verdict.empty]
  · by_cases he : resp.status = some 21006
    · simp [classify, hz, he, Verdict.empty]
    · simp [classify, hz, he, Verdict.empty]

/-- C6: an adopted status of 21006 always yields the expiry-specific verdict
(isValid false, expired true, status 21006, the expiry error message),
whatever the receipt contents; every other status yields a body with no
`expired` field, so the expired shape is distinct from the generic one. -/
theorem claim6_expired_status (resp resp2 : AppleResponse)
    (env env2 : String) (n1 n2 n3 n4 : Int)
    (h : resp.status = some 21006)
    (h2 : resp2.status ≠ some 21006) :
    classify resp env n1 n2 = expiredVerdict ∧
    (classify resp2 env2 n3 n4).body.expired = none := by
  constructor
  · rw [classify, if_pos (by simp [h]), if_pos h, h]
    rfl
  · by_cases hz : resp2.status = some 0
    · by_cases hb : bundleOf resp2 = some BUNDLE_ID
      · rw [classify_eq_success resp2 env2 n3 n4 hz hb]
        rfl
      · simp [classify, hz, hb, Verdict.empty]
    · simp [classify, hz, h2, Verdict.empty]

/-- Witness for `claim6_expired_status`: status 21006 versus status 21003. -/
theorem claim6_witness :
    classify ⟨some 21006, none, none, none⟩ "production" 0 0 = expiredVerdict ∧
    (classify ⟨some 21003, none, none, none⟩ "production" 0 0).body.expired =
      none :=
  claim6_expired_status ⟨some 21006, none, none, none⟩
    ⟨some 21003, none, none, none⟩ "production" "production" 0 0 0 0
    rfl (by decide)

/-- C4: with an adopted sandbox environment, status 0, matching bundle id and
methods (a), (b), (c) all finding nothing, the verdict is valid with the
fallback subscriptionInfo; the identical upstream result classified with
environment production is invalid. -/
theorem claim4_sandbox_fallback (resp : AppleResponse) (nowMs nowTs : Int)
    (h0 : resp.status = some 0)
    (hb : bundleOf resp = some BUNDLE_ID)
    (h1 : ∀ e, method1 resp e nowMs = none)
    (h2 : ∀ e, method2 resp e = none)
    (h3 : ∀ e, method3 resp e = none) :
    (classify resp "sandbox" nowMs nowTs).body.isValid = some true ∧
    (classify resp "sandbox" nowMs nowTs).body.subscriptionInfo =
      some { SubscriptionInfo.empty with
        productId := some PRODUCT_ID
        environment := some "sandbox"
        fallback := some true } ∧
    (classify resp "production" nowMs nowTs).body.isValid = some false := by
  have hd4s : method4 resp "sandbox" =
      some { SubscriptionInfo.empty with
        productId := some PRODUCT_ID
        environment := some "sandbox"
        fallback := some true } := by
    rw [method4, if_pos ⟨rfl, hb⟩]
  have hds : detect resp "sandbox" nowMs =
      some { SubscriptionInfo.empty with
        productId := some PRODUCT_ID
        environment := some "sandbox"
        fallback := some true } := by
    simp [detect, detectFrom2, h1, h2, h3, hd4s]
  have hd4p : method4 resp "production" = none := by
    rw [method4, if_neg]
    intro hc
    exact absurd hc.1 (by decide)
  have hdp : detect resp "production" nowMs = none := by
    simp [detect, detectFrom2, h1, h2, h3, hd4p]
  rw [classify_eq_success resp "sandbox" nowMs nowTs h0 hb,
    classify_eq_success resp "production" nowMs nowTs h0 hb]
  simp [hds, hdp]

/-- Witness for `claim4_sandbox_fallback`: a bare status-0 response with the
right bundle id and no transaction history at all. -/
theorem claim4_witness :
    (classify ⟨some 0, some ⟨some "com.elevenstoic.app", none⟩, none, none⟩
      "sandbox" 0 0).body.isValid = some true ∧
    (classify ⟨some 0, some ⟨some "com.elevenstoic.app", none⟩, none, none⟩
      "sandbox" 0 0).body.subscriptionInfo =
      some { SubscriptionInfo.empty with
        productId := some PRODUCT_ID
        environment := some "sandbox"
        fallback := some true } ∧
    (classify ⟨some 0, some ⟨some "com.elevenstoic.app", none⟩, none, none⟩
      "production" 0 0).body.isValid = some false :=
  claim4_sandbox_fallback ⟨some 0, some ⟨some "com.elevenstoic.app", none⟩,
    none, none⟩ 0 0 rfl rfl (fun _ => rfl) (fun _ => rfl) (fun _ => rfl)

/-- C7: every verdict the handler sends with isValid true carries a non-null
subscriptionInfo (on every path, validity is set together with the info). -/
theorem claim7_valid_implies_info (req : Request) (o : Oracle)
    (nowMs nowTs : Int)
    (h : (handler req o nowMs nowTs).resp.body.isValid = some true) :
    (handler req o nowMs nowTs).resp.body.subscriptionInfo ≠ none := by
  by_cases h1 : req.method = "OPTIONS"
  · simp [handler, h1, Verdict.empty] at h
  · by_cases h2 : req.method = "POST"
    · by_cases h3 : jsFalsyStr req.receiptData = true
      · simp [handler, h1, h2, h3, Verdict.empty] at h
      · by_cases h4 : req.bundleId = some BUNDLE_ID
        · rcases hcp : callPhase o with ⟨adopted, calls⟩
          rcases adopted with _ | ⟨r, env⟩
          · simp [handler, h1, h2, h3, h4, hcp, Verdict.empty] at h
          · have hh : handler req o nowMs nowTs =
                { resp := classify r env nowMs nowTs, calls := calls } := by
              simp [handler, h1, h2, h3, h4, hcp]
            rw [hh] at h ⊢
            exact classify_valid_info r env nowMs nowTs h
        · simp [handler, h1, h2, h3, h4, Verdict.empty] at h
    · simp [handler, h1, h2, Verdict.empty] at h

/-- Witness for `claim7_valid_implies_info`: a production receipt with a
matching in-app purchase, which is marked valid. -/
theorem claim7_witness :
    (handler ⟨"POST", some "blob", some "com.elevenstoic.app", none⟩
      ⟨.ok ⟨some 0, some ⟨some "com.elevenstoic.app",
          some [⟨some "com.elevenstoic.monthly", some "5", some "t"⟩]⟩,
        none, none⟩,
        fun _ => .err .abortError⟩ 0 0).resp.body.subscriptionInfo ≠ none :=
  claim7_valid_implies_info _ _ 0 0 (by decide)

/-- C8: absent optional upstream fields are tolerated: a missing
`latest_receipt_info`, `receipt`, `receipt.in_app` or `pending_renewal_info`
just makes the corresponding detection method find nothing, and every POST run
of the handler terminates in a well-formed verdict carrying an `isValid` field
(the embedded handler is a total function, so nothing is thrown to the
caller). -/
theorem claim8_absent_fields (resp : AppleResponse) (environment : String)
    (nowMs : Int) (req : Request) (o : Oracle) (nowTs : Int) :
    (resp.latest_receipt_info = none → method1 resp environment nowMs = none) ∧
    (resp.receipt = none → method2 resp environment = none) ∧
    (∀ rec, resp.receipt = some rec → rec.in_app = none →
      method2 resp environment = none) ∧
    (resp.pending_renewal_info = none → method3 resp environment = none) ∧
    (req.method = "POST" →
      (handler req o nowMs nowTs).resp.body.isValid ≠ none) := by
  refine ⟨?_, ?_, ?_, ?_, ?_⟩
  · intro h; simp [method1, h]
  · intro h; simp [method2, h]
  · intro rec h hia; simp [method2, h, hia]
  · intro h; simp [method3, h]
  · intro h2
    have h1 : ¬req.method = "OPTIONS" := by rw [h2]; decide
    by_cases h3 : jsFalsyStr req.receiptData = true
    · simp [handler, h1, h2, h3, Verdict.empty]
    · by_cases h4 : req.bundleId = some BUNDLE_ID
      · rcases hcp : callPhase o with ⟨adopted, calls⟩
        rcases adopted with _ | ⟨r, env⟩
        · simp [handler, h1, h2, h3, h4, hcp, Verdict.empty]
        · have hh : handler req o nowMs nowTs =
              { resp := classify r env nowMs nowTs, calls := calls } := by
            simp [handler, h1, h2, h3, h4, hcp]
          rw [hh]
          exact classify_isValid_some r env nowMs nowTs
      · simp [handler, h1, h2, h3, h4, Verdict.empty]

/-- Witness for `claim8_absent_fields`: every optional field absent, plus a
double upstream failure — the handler still answers with an isValid body. -/
theorem claim8_witness :
    method1 ⟨some 0, none, none, none⟩ "production" 0 = none ∧
    (handler ⟨"POST", some "blob", some "com.elevenstoic.app", none⟩
      ⟨.err .abortError, fun _ => .err .abortError⟩ 0 0).resp.body.isValid ≠
      none :=
  ⟨(claim8_absent_fields ⟨some 0, none, none, none⟩ "production" 0
      ⟨"POST", some "blob", some "com.elevenstoic.app", none⟩
      ⟨.err .abortError, fun _ => .err .abortError⟩ 0).1 rfl,
   (claim8_absent_fields ⟨some 0, none, none, none⟩ "production" 0
      ⟨"POST", some "blob", some "com.elevenstoic.app", none⟩
      ⟨.err .abortError, fun _ => .err .abortError⟩ 0).2.2.2.2 rfl⟩

theorem callPhase_cases (o : Oracle) :
    ((callPhase o).2 = [.production] ∧
      ∃ r, o.prod = .ok r ∧ r.status ≠ some 21007) ∨
    ((callPhase o).2 = [.production, .sandbox] ∧
      ((∃ e, o.prod = .err e) ∨
        ∃ r, o.prod = .ok r ∧ r.status = some 21007 ∧
          ∃ r2, o.sandbox 0 = .ok r2)) ∨
    ((callPhase o).2 = [.production, .sandbox, .sandbox] ∧
      ∃ r e, o.prod = .ok r ∧ r.status = some 21007 ∧ o.sandbox 0 = .err e) := by
  cases hp : o.prod with
  | err e =>
    cases hs : o.sandbox 0 with
    | ok r2 => exact Or.inr (Or.inl ⟨by simp [callPhase, hp, hs], Or.inl ⟨e, rfl⟩⟩)
    | err e2 => exact Or.inr (Or.inl ⟨by simp [callPhase, hp, hs], Or.inl ⟨e, rfl⟩⟩)
  | ok r =>
    by_cases hst : r.status = some 21007
    · cases hs : o.sandbox 0 with
      | ok r2 =>
        exact Or.inr (Or.inl ⟨by simp [callPhase, hp, hst, hs],
          Or.inr ⟨r, rfl, hst, r2, rfl⟩⟩)
      | err e =>
        cases hs1 : o.sandbox 1 with
        | ok r3 =>
          exact Or.inr (Or.inr ⟨by simp [callPhase, hp, hst, hs, hs1],
            r, e, rfl, hst, rfl⟩)
        | err e2 =>
          exact Or.inr (Or.inr ⟨by simp [callPhase, hp, hst, hs, hs1],
            r, e, rfl, hst, rfl⟩)
    · exact Or.inl ⟨by simp [callPhase, hp, hst], r, rfl, hst⟩

theorem handler_calls_sub (req : Request) (o : Oracle) (n1 n2 : Int) :
    (handler req o n1 n2).calls = [] ∨
    (handler req o n1 n2).calls = (callPhase o).2 := by
  by_cases h1 : req.method = "OPTIONS"
  · left; simp [handler, h1]
  · by_cases h2 : req.method = "POST"
    · by_cases h3 : jsFalsyStr req.receiptData = true
      · left; simp [handler, h1, h2, h3]
      · by_cases h4 : req.bundleId = some BUNDLE_ID
        · right
          rcases hcp : callPhase o with ⟨adopted, calls⟩
          rcases adopted with _ | ⟨r, env⟩ <;>
            simp [handler, h1, h2, h3, h4, hcp]
        · left; simp [handler, h1, h2, h3, h4]
    · left; simp [handler, h1, h2]

/-- C1 counterexample: production succeeds with status 21007 and the re-routed
sandbox call throws; the outer catch then issues one more sandbox call, for a
total of 3 upstream calls — contradicting "at most 2 upstream calls ever". -/
theorem claim1_counterexample :
    (handler ⟨"POST", some "blob", some "com.elevenstoic.app", none⟩
      ⟨.ok ⟨some 21007, none, none, none⟩, fun _ => .err .abortError⟩
      0 0).calls = [.production, .sandbox, .sandbox] := by
  decide

/-- C1 amended: at most 3 upstream calls ever occur, the trace is one of [],
[production], [production, sandbox], [production, sandbox, sandbox]; sandbox is
only called after a production failure or a production success with status
21007 (so never after a production success with any other status, where the
trace stays within [production]); and the only 3-call trace arises when the
21007 re-routed sandbox call itself fails. -/
theorem claim1_amended (req : Request) (o : Oracle) (nowMs nowTs : Int) :
    ((handler req o nowMs nowTs).calls = [] ∨
     (handler req o nowMs nowTs).calls = [.production] ∨
     (handler req o nowMs nowTs).calls = [.production, .sandbox] ∨
     (handler req o nowMs nowTs).calls = [.production, .sandbox, .sandbox]) ∧
    (handler req o nowMs nowTs).calls.length ≤ 3 ∧
    (Endpoint.sandbox ∈ (handler req o nowMs nowTs).calls →
      (∃ e, o.prod = .err e) ∨
      ∃ r, o.prod = .ok r ∧ r.status = some 21007) ∧
    ((handler req o nowMs nowTs).calls.length = 3 →
      ∃ r e, o.prod = .ok r ∧ r.status = some 21007 ∧ o.sandbox 0 = .err e) ∧
    (∀ r, o.prod = .ok r → r.status ≠ some 21007 →
      (handler req o nowMs nowTs).calls = [] ∨
      (handler req o nowMs nowTs).calls = [.production]) := by
  rcases handler_calls_sub req o nowMs nowTs with hc | hc
  · rw [hc]
    exact ⟨Or.inl rfl, by simp, by simp, by simp, fun _ _ _ => Or.inl rfl⟩
  · rw [hc]
    rcases callPhase_cases o with ⟨h, r, hp, hst⟩ | ⟨h, hor⟩ | ⟨h, r, e, hp, hst, hs⟩
    · rw [h]
      refine ⟨Or.inr (Or.inl rfl), by simp, ?_, by simp, fun _ _ _ => Or.inr rfl⟩
      intro hmem
      simp at hmem
    · rw [h]
      refine ⟨Or.inr (Or.inr (Or.inl rfl)), by simp, ?_, by simp, ?_⟩
      · intro _
        rcases hor with ⟨e, he⟩ | ⟨r, hr, hst, _⟩
        · exact Or.inl ⟨e, he⟩
        · exact Or.inr ⟨r, hr, hst⟩
      · intro r2 hr2 hne
        rcases hor with ⟨e, he⟩ | ⟨r, hr, hst, _⟩
        · rw [hr2] at he; exact absurd he (by simp)
        · rw [hr2] at hr
          cases hr
          exact absurd hst hne
    · rw [h]
      refine ⟨Or.inr (Or.inr (Or.inr rfl)), by simp,
        fun _ => Or.inr ⟨r, hp, hst⟩, fun _ => ⟨r, e, hp, hst, hs⟩, ?_⟩
      intro r2 hr2 hne
      rw [hr2] at hp
      cases hp
      exact absurd hst hne

/-- Witness for `claim1_amended`: with a failing production call the sandbox
membership hypothesis is discharged and the production-failure disjunct holds. -/
theorem claim1_witness :
    (∃ e, (⟨.err .fetchError, fun _ => .ok ⟨some 0, none, none, none⟩⟩ :
      Oracle).prod = .err e) ∨
    ∃ r, (⟨.err .fetchError, fun _ => .ok ⟨some 0, none, none, none⟩⟩ :
      Oracle).prod = .ok r ∧ r.status = some 21007 :=
  (claim1_amended ⟨"POST", some "blob", some "com.elevenstoic.app", none⟩
    ⟨.err .fetchError, fun _ => .ok ⟨some 0, none, none, none⟩⟩ 0 0).2.2.1
    (by decide)

theorem classify_environment_cases (resp : AppleResponse) (env : String)
    (n1 n2 : Int) :
    (classify resp env n1 n2).body.environment = none ∨
    (classify resp env n1 n2).body.environment = some env := by
  by_cases hz : resp.status = some 0
  · by_cases hb : bundleOf resp = some BUNDLE_ID
    · rw [classify_eq_success resp env n1 n2 hz hb]
      exact Or.inr rfl
    · simp [classify, hz, hb, Verdict.empty]
  · by_cases he : resp.status = some 21006
    · simp [classify, hz, he, Verdict.empty]
    · simp [classify, hz, he, Verdict.empty]

theorem handler_post_callPhase (req : Request) (o : Oracle) (n1 n2 : Int)
    (r : AppleResponse) (env : String) (calls : List Endpoint)
    (h2 : req.method = "POST") (h3 : jsFalsyStr req.receiptData = false)
    (h4 : req.bundleId = some BUNDLE_ID)
    (hcp : callPhase o = (some (r, env), calls)) :
    handler req o n1 n2 = { resp := classify r env n1 n2, calls := calls } := by
  have h1 : ¬req.method = "OPTIONS" := by rw [h2]; decide
  simp [handler, h1, h2, h3, h4, hcp]

theorem handler_post_fail (req : Request) (o : Oracle) (n1 n2 : Int)
    (calls : List Endpoint)
    (h2 : req.method = "POST") (h3 : jsFalsyStr req.receiptData = false)
    (h4 : req.bundleId = some BUNDLE_ID)
    (hcp : callPhase o = (none, calls)) :
    handler req o n1 n2 = { resp := fail500, calls := calls } := by
  have h1 : ¬req.method = "OPTIONS" := by rw [h2]; decide
  simp [handler, h1, h2, h3, h4, hcp, fail500]

/-- C2 counterexample: production succeeds with status 21007, the sandbox call
is made and its result (status 21006) adopted — but the final verdict carries
no environment field at all, rather than environment "sandbox". -/
theorem claim2_counterexample :
    (handler ⟨"POST", some "blob", some "com.elevenstoic.app", none⟩
      ⟨.ok ⟨some 21007, none, none, none⟩,
        fun _ => .ok ⟨some 21006, none, none, none⟩⟩
      0 0).resp.body.environment = none ∧
    (handler ⟨"POST", some "blob", some "com.elevenstoic.app", none⟩
      ⟨.ok ⟨some 21007, none, none, none⟩,
        fun _ => .ok ⟨some 21006, none, none, none⟩⟩
      0 0).calls = [.production, .sandbox] := by
  constructor <;> decide

/-- C2 amended: when production succeeds with status 21007 and the re-routed
sandbox call succeeds, exactly one additional sandbox call is made, its result
is adopted and classified with internal environment "sandbox" whatever its own
status; the verdict's environment field is then either absent (non-zero
sandbox status or bundle mismatch) or "sandbox", and it is "sandbox" whenever
the sandbox status is 0 and the bundle id matches. (When the re-routed sandbox
call itself throws, a second sandbox call is attempted instead.) -/
theorem claim2_amended (req : Request) (o : Oracle) (nowMs nowTs : Int)
    (r r2 : AppleResponse)
    (h2 : req.method = "POST") (h3 : jsFalsyStr req.receiptData = false)
    (h4 : req.bundleId = some BUNDLE_ID)
    (hp : o.prod = .ok r) (hst : r.status = some 21007)
    (hs : o.sandbox 0 = .ok r2) :
    (handler req o nowMs nowTs).calls = [.production, .sandbox] ∧
    (handler req o nowMs nowTs).resp = classify r2 "sandbox" nowMs nowTs ∧
    ((handler req o nowMs nowTs).resp.body.environment = none ∨
     (handler req o nowMs nowTs).resp.body.environment = some "sandbox") ∧
    (r2.status = some 0 → bundleOf r2 = some BUNDLE_ID →
      (handler req o nowMs nowTs).resp.body.environment = some "sandbox") := by
  have hcp : callPhase o = (some (r2, "sandbox"), [.production, .sandbox]) := by
    simp [callPhase, hp, hst, hs]
  have hh := handler_post_callPhase req o nowMs nowTs r2 "sandbox"
    [.production, .sandbox] h2 h3 h4 hcp
  rw [hh]
  refine ⟨rfl, rfl, classify_environment_cases r2 "sandbox" nowMs nowTs, ?_⟩
  intro hz hb
  rw [classify_eq_success r2 "sandbox" nowMs nowTs hz hb]

/-- Witness for `claim2_amended`: production answers 21007, sandbox answers
status 0 with a matching bundle id. -/
theorem claim2_witness :
    (handler ⟨"POST", some "blob", some "com.elevenstoic.app", none⟩
      ⟨.ok ⟨some 21007, none, none, none⟩,
        fun _ => .ok ⟨some 0, some ⟨some "com.elevenstoic.app", none⟩,
          none, none⟩⟩
      0 0).calls = [.production, .sandbox] ∧
    (handler ⟨"POST", some "blob", some "com.elevenstoic.app", none⟩
      ⟨.ok ⟨some 21007, none, none, none⟩,
        fun _ => .ok ⟨some 0, some ⟨some "com.elevenstoic.app", none⟩,
          none, none⟩⟩
      0 0).resp =
      classify ⟨some 0, some ⟨some "com.elevenstoic.app", none⟩, none, none⟩
        "sandbox" 0 0 ∧
    ((handler ⟨"POST", some "blob", some "com.elevenstoic.app", none⟩
      ⟨.ok ⟨some 21007, none, none, none⟩,
        fun _ => .ok ⟨some 0, some ⟨some "com.elevenstoic.app", none⟩,
          none, none⟩⟩
      0 0).resp.body.environment = none ∨
     (handler ⟨"POST", some "blob", some "com.elevenstoic.app", none⟩
      ⟨.ok ⟨some 21007, none, none, none⟩,
        fun _ => .ok ⟨some 0, some ⟨some "com.elevenstoic.app", none⟩,
          none, none⟩⟩
      0 0).resp.body.environment = some "sandbox") ∧
    ((⟨some 0, some ⟨some "com.elevenstoic.app", none⟩, none, none⟩ :
        AppleResponse).status = some 0 →
      bundleOf ⟨some 0, some ⟨some "com.elevenstoic.app", none⟩, none, none⟩ =
        some BUNDLE_ID →
      (handler ⟨"POST", some "blob", some "com.elevenstoic.app", none⟩
        ⟨.ok ⟨some 21007, none, none, none⟩,
          fun _ => .ok ⟨some 0, some ⟨some "com.elevenstoic.app", none⟩,
            none, none⟩⟩
        0 0).resp.body.environment = some "sandbox") :=
  claim2_amended ⟨"POST", some "blob", some "com.elevenstoic.app", none⟩
    ⟨.ok ⟨some 21007, none, none, none⟩,
      fun _ => .ok ⟨some 0, some ⟨some "com.elevenstoic.app", none⟩,
        none, none⟩⟩
    0 0 ⟨some 21007, none, none, none⟩
    ⟨some 0, some ⟨some "com.elevenstoic.app", none⟩, none, none⟩
    rfl rfl rfl rfl rfl rfl

/-- C5 counterexample: both the production call and the fallback sandbox call
time out; the handler answers HTTP 500 (not 408) with the terminal failure
body. -/
theorem claim5_counterexample :
    (handler ⟨"POST", some "blob", some "com.elevenstoic.app", none⟩
      ⟨.err .abortError, fun _ => .err .abortError⟩ 0 0).resp.httpStatus =
      500 ∧
    (handler ⟨"POST", some "blob", some "com.elevenstoic.app", none⟩
      ⟨.err .abortError, fun _ => .err .abortError⟩ 0 0).resp.body.error =
      some "Receipt validation failed with Apple" ∧
    (handler ⟨"POST", some "blob", some "com.elevenstoic.app", none⟩
      ⟨.err .abortError, fun _ => .err .abortError⟩ 0 0).resp.body.environment =
      none := by
  refine ⟨rfl, rfl, rfl⟩

/-- C5 amended: when both the production and the fallback sandbox attempts fail
(likewise when the 21007 re-route and the subsequent sandbox fallback both
fail), the handler returns the terminal isValid:false verdict with HTTP status
500 — the same status whatever the failure cause — with the upstream-failure
error message, no environment field, and no propagated exception. The 408/502
branches of the outer catch are unreachable for upstream failures, which are
consumed by the inner catch. -/
theorem claim5_amended (req : Request) (o : Oracle) (nowMs nowTs : Int)
    (e1 e2 : UpstreamError)
    (h2 : req.method = "POST") (h3 : jsFalsyStr req.receiptData = false)
    (h4 : req.bundleId = some BUNDLE_ID) :
    (o.prod = .err e1 → o.sandbox 0 = .err e2 →
      handler req o nowMs nowTs =
        { resp := fail500, calls := [.production, .sandbox] }) ∧
    (∀ r, o.prod = .ok r → r.status = some 21007 → o.sandbox 0 = .err e1 →
      o.sandbox 1 = .err e2 →
      handler req o nowMs nowTs =
        { resp := fail500, calls := [.production, .sandbox, .sandbox] }) := by
  constructor
  · intro hp hs
    exact handler_post_fail req o nowMs nowTs [.production, .sandbox] h2 h3 h4
      (by simp [callPhase, hp, hs])
  · intro r hp hst hs0 hs1
    exact handler_post_fail req o nowMs nowTs
      [.production, .sandbox, .sandbox] h2 h3 h4
      (by simp [callPhase, hp, hst, hs0, hs1])

/-- Witness for `claim5_amended`: a network failure on production and a timeout
on sandbox still produce the single 500 terminal verdict. -/
theorem claim5_witness :
    handler ⟨"POST", some "blob", some "com.elevenstoic.app", none⟩
      ⟨.err .fetchError, fun _ => .err .abortError⟩ 0 0 =
      { resp := fail500, calls := [.production, .sandbox] } :=
  (claim5_amended ⟨"POST", some "blob", some "com.elevenstoic.app", none⟩
    ⟨.err .fetchError, fun _ => .err .abortError⟩ 0 0 .fetchError .abortError
    rfl rfl rfl).1 rfl rfl

theorem classify_timestamp_irrel (resp : AppleResponse) (env : String)
    (nowMs t1 t2 : Int) :
    stripBodyTimestamp (classify resp env nowMs t1) =
    stripBodyTimestamp (classify resp env nowMs t2) := by
  by_cases hz : resp.status = some 0
  · by_cases hb : bundleOf resp = some BUNDLE_ID
    · rw [classify_eq_success resp env nowMs t1 hz hb,
        classify_eq_success resp env nowMs t2 hz hb]
      rfl
    · have h : classify resp env nowMs t1 = classify resp env nowMs t2 := by
        simp [classify, hz, hb]
      rw [h]
  · by_cases he : resp.status = some 21006
    · have h : classify resp env nowMs t1 = classify resp env nowMs t2 := by
        simp [classify, hz, he]
      rw [h]
    · have h : classify resp env nowMs t1 = classify resp env nowMs t2 := by
        simp [classify, hz, he]
      rw [h]

/-- C9 counterexample: the same request against the same deterministic stub,
run at two different instants, yields verdicts that differ in `isValid` — not
only in the timestamp field — because the grace-period comparison reads the
clock. -/
theorem claim9_counterexample :
    (handler ⟨"POST", some "blob", some "com.elevenstoic.app", none⟩
      ⟨.ok ⟨some 0, some ⟨some "com.elevenstoic.app", none⟩,
        some [⟨some "com.elevenstoic.monthly", some "1000", some "t",
          none, none⟩], none⟩,
        fun _ => .err .abortError⟩ 0 0).resp.body.isValid = some true ∧
    (handler ⟨"POST", some "blob", some "com.elevenstoic.app", none⟩
      ⟨.ok ⟨some 0, some ⟨some "com.elevenstoic.app", none⟩,
        some [⟨some "com.elevenstoic.monthly", some "1000", some "t",
          none, none⟩], none⟩,
        fun _ => .err .abortError⟩ 10000000 10000000).resp.body.isValid =
      some false := by
  constructor <;> decide

/-- C9 amended: the handler is a pure function of the request, the stub
upstream and the clock readings, and the timestamp clock reading influences
only the timestamp field: two runs with the same inputs and the same
grace-comparison clock reading agree on every field once the timestamp is
erased (while runs at different grace-comparison instants may also differ in
validity, as the counterexample shows). -/
theorem claim9_amended (req : Request) (o : Oracle) (nowMs t1 t2 : Int) :
    stripTimestamp (handler req o nowMs t1) =
    stripTimestamp (handler req o nowMs t2) := by
  by_cases h1 : req.method = "OPTIONS"
  · simp [handler, h1]
  · by_cases h2 : req.method = "POST"
    · by_cases h3 : jsFalsyStr req.receiptData = true
      · simp [handler, h1, h2, h3]
      · have hf : jsFalsyStr req.receiptData = false :=
          Bool.eq_false_iff.mpr h3
        by_cases h4 : req.bundleId = some BUNDLE_ID
        · rcases hcp : callPhase o with ⟨adopted, calls⟩
          rcases adopted with _ | ⟨r, env⟩
          · simp [handler, h1, h2, h3, h4, hcp]
          · rw [handler_post_callPhase req o nowMs t1 r env calls h2 hf h4 hcp,
              handler_post_callPhase req o nowMs t2 r env calls h2 hf h4 hcp]
            simp only [stripTimestamp]
            rw [classify_timestamp_irrel r env nowMs t1 t2]
        · simp [handler, h1, h2, h3, h4]
    · simp [handler, h1, h2]
